import Mathlib

/-!
Verification of the real-time messaging core of the toloka-server backend.

The Go source is shallowly embedded: GORM-persisted tables become lists of
records inside a `DB` record, the WebSocket hub's live-session map becomes a
list of `Session` records inside a `Hub` record (a Go `*Client` pointer is
identified by the session's `id` field), channel mailboxes become bounded
lists (a `select`/`default` non-blocking send succeeds exactly when the
mailbox length is below its capacity), and `time.Now()` is an explicit `now`
parameter.  Wall-clock timestamps that no claim depends on (message
`CreatedAt`/`UpdatedAt`, presence `UpdatedAt`) are not modelled.
-/

namespace Toloka

/-- models/message.go: `MessageStatus` with constants sent / delivered / read. -/
inductive MessageStatus where
  | sent
  | delivered
  | read
deriving DecidableEq, Repr

/-- models/block.go: a Block row — directed pair (blocker, blocked). -/
structure Block where
  blockerID : Nat
  blockedID : Nat
deriving DecidableEq, Repr

/-- models/conversation.go: a Conversation row (participants plus a nullable
last-message pointer). -/
structure Conversation where
  id : Nat
  userAID : Nat
  userBID : Nat
  lastMessageID : Option Nat
deriving DecidableEq, Repr

/-- models/message.go: a Message row (attachments and timestamps are outside
the claims and not modelled). -/
structure Message where
  id : Nat
  conversationID : Nat
  fromUserID : Nat
  toUserID : Nat
  text : String
  status : MessageStatus
  tempID : String
deriving DecidableEq, Repr

/-- models/presence.go: a UserPresence row (one per user, unique index on
`user_id`). -/
structure UserPresence where
  userID : Nat
  isOnline : Bool
  lastSeenAt : Nat
deriving DecidableEq, Repr

/-- The persisted state: each GORM table as a list of rows in insertion
order (`First` scans in primary-key order, which insertion order realises),
plus the auto-increment counters. -/
structure DB where
  blocks : List Block
  conversations : List Conversation
  messages : List Message
  presences : List UserPresence
  nextConvID : Nat
  nextMsgID : Nat
deriving DecidableEq, Repr

/-- models/block.go `IsBlocked`: counts Block rows with
`blocker_id = userAID AND blocked_id = userBID` — one direction only. -/
def IsBlocked (db : DB) (userAID userBID : Nat) : Bool :=
  db.blocks.any (fun b => b.blockerID == userAID && b.blockedID == userBID)

/-- The conversation lookup used by `GetOrCreateConversation` and
`handleSendMessage`:
`(user_a_id = ? AND user_b_id = ?) OR (user_a_id = ? AND user_b_id = ?)`
with the pair in both orders, returning the first row. -/
def findConversation (db : DB) (userAID userBID : Nat) : Option Conversation :=
  db.conversations.find? (fun c =>
    (c.userAID == userAID && c.userBID == userBID) ||
    (c.userAID == userBID && c.userBID == userAID))

/-- routes/participants.go `ConversationService.GetOrCreateConversation`:
reject when `IsBlocked(userAID, userBID)`, otherwise return the existing
conversation for the pair in either order, or create a fresh row. -/
def GetOrCreateConversation (db : DB) (userAID userBID : Nat) :
    Except String (Conversation × DB) :=
  if IsBlocked db userAID userBID then
    .error "user is blocked"
  else
    match findConversation db userAID userBID with
    | some c => .ok (c, db)
    | none =>
      let c : Conversation :=
        { id := db.nextConvID, userAID := userAID, userBID := userBID,
          lastMessageID := none }
      .ok (c, { db with conversations := db.conversations ++ [c],
                        nextConvID := db.nextConvID + 1 })

/-- models/presence.go `UpdatePresence`: upsert the single presence row for
the user; both `SetOnline` and `SetOffline` refresh `LastSeenAt` to the
current time. -/
def UpdatePresence (db : DB) (userID : Nat) (isOnline : Bool) (now : Nat) : DB :=
  match db.presences.find? (fun p => p.userID == userID) with
  | some _ =>
    { db with presences := db.presences.map (fun p =>
        if p.userID == userID then
          { p with isOnline := isOnline, lastSeenAt := now }
        else p) }
  | none =>
    { db with presences :=
        db.presences ++ [{ userID := userID, isOnline := isOnline, lastSeenAt := now }] }

/-- models/presence.go `GetPresence`: not-found is absorbed into an `ok`
offline default with the zero time (`time.Time\x7b\x7d` becomes `0`); only a
storage error (not modelled) reaches the error branch. -/
def GetPresence (db : DB) (userID : Nat) : Except String UserPresence :=
  match db.presences.find? (fun p => p.userID == userID) with
  | some p => .ok p
  | none => .ok { userID := userID, isOnline := false, lastSeenAt := 0 }

/-- A JSON scalar inside a decoded frame payload (`map[string]interface\x7b\x7d`).
`num` stands for an untyped JSON number (Go decodes those as `float64`; only
non-negative integral ids appear, so `Nat` suffices), `status` for a
`MessageStatus` value placed into an outbound map. -/
inductive JValue where
  | str (s : String)
  | num (n : Nat)
  | status (st : MessageStatus)
deriving DecidableEq, Repr

/-- A frame payload: either a decoded JSON object (inbound frames and most
outbound ones) or the typed `PresencePayload` struct used by
`broadcastPresenceUpdate`. -/
inductive WSPayload where
  | obj (fields : List (String × JValue))
  | presence (userID : Nat) (isOnline : Bool) (lastSeen : Nat)
deriving DecidableEq, Repr

/-- services/ws_service.go `WSMessage`: the wire envelope. -/
structure WSMessage where
  type : String
  payload : WSPayload
  tempID : String
deriving DecidableEq, Repr

/-- Go's `payload["text"].(string)` with a discarded `ok`: the zero value ""
when the key is missing or the value is not a string. -/
def getString (fields : List (String × JValue)) (key : String) : String :=
  match fields.lookup key with
  | some (.str s) => s
  | _ => ""

/-- Go's `uint(payload["to_user_id"].(float64))` with a discarded `ok`: the
zero value 0 when the key is missing or the value is not a number. -/
def getNum (fields : List (String × JValue)) (key : String) : Nat :=
  match fields.lookup key with
  | some (.num n) => n
  | _ => 0

/-- services/ws_service.go `Client`: one live session.  A Go `*Client`
pointer is identified by `id`; `mailbox`/`capacity` model the buffered
`Send` channel (created with capacity 256). -/
structure Session where
  id : Nat
  userID : Nat
  mailbox : List WSMessage
  capacity : Nat
deriving DecidableEq, Repr

/-- services/ws_service.go `Hub`: the live-session set, plus the record of
sessions whose `Send` channel has been closed (so a claim can speak about
"mailbox closed and session dropped"). -/
structure Hub where
  clients : List Session
  closed : List Session
deriving DecidableEq, Repr

/-- The non-blocking send `select \x7b case client.Send <- message: ...
default: ... \x7d`: enqueue when the buffered channel has room, otherwise
signal the slow consumer (`none`). -/
def trySend (s : Session) (msg : WSMessage) : Option Session :=
  if s.mailbox.length < s.capacity then
    some { s with mailbox := s.mailbox ++ [msg] }
  else
    none

/-- The fan-out loop pattern `for client := range h.clients` with a
per-client step: a `some` result keeps the (possibly updated) session live,
a `none` result closes its mailbox and deletes it from the set.  Returns
(remaining live sessions, dropped sessions). -/
def fanout (step : Session → Option Session) :
    List Session → List Session × List Session
  | [] => ([], [])
  | s :: rest =>
    let r := fanout step rest
    match step s with
    | some s2 => (s2 :: r.1, r.2)
    | none => (r.1, s :: r.2)

/-- services/ws_service.go `Hub.SendToUser`: non-blocking send to every live
session whose `UserID` matches; a full mailbox is closed and its session
deleted. -/
def sendToUser (h : Hub) (userID : Nat) (msg : WSMessage) : Hub :=
  let r := fanout (fun s => if s.userID == userID then trySend s msg else some s)
    h.clients
  { clients := r.1, closed := h.closed ++ r.2 }

/-- services/ws_service.go `Hub.Run`, `broadcast` case: non-blocking send to
every live session. -/
def broadcastAll (h : Hub) (msg : WSMessage) : Hub :=
  let r := fanout (fun s => trySend s msg) h.clients
  { clients := r.1, closed := h.closed ++ r.2 }

/-- The `presence.update` frame built by `broadcastPresenceUpdate`
(`LastSeen: time.Now()`). -/
def presenceFrame (userID : Nat) (isOnline : Bool) (now : Nat) : WSMessage :=
  { type := "presence.update", payload := .presence userID isOnline now,
    tempID := "" }

/-- services/ws_service.go `Hub.broadcastPresenceUpdate`: non-blocking send
of the presence frame to every live session except those of `userID`
itself. -/
def broadcastPresenceUpdate (h : Hub) (userID : Nat) (isOnline : Bool)
    (now : Nat) : Hub :=
  let msg := presenceFrame userID isOnline now
  let r := fanout (fun s => if s.userID != userID then trySend s msg else some s)
    h.clients
  { clients := r.1, closed := h.closed ++ r.2 }

/-- The per-client inner loop of `Hub.SendToConversation`:
`for _, participantID := range participants` with the non-blocking send when
`client.UserID == participantID && client.UserID != excludeUserID`.  Once
the mailbox has been closed (`none`) the session stays dropped (in Go a
second matching participant would panic on the closed channel; with
distinct participants at most one send fires per client). -/
def convStep (participants : List Nat) (excludeUserID : Nat) (msg : WSMessage)
    (s : Session) : Option Session :=
  participants.foldl (fun acc pid =>
    match acc with
    | some s2 =>
      if s2.userID == pid && s2.userID != excludeUserID then trySend s2 msg
      else some s2
    | none => none) (some s)

/-- services/ws_service.go `Hub.SendToConversation`: load the conversation,
then fan out to the live sessions of its two participants, excluding
`excludeUserID`; a missing conversation logs and returns. -/
def sendToConversation (db : DB) (h : Hub) (conversationID : Nat)
    (msg : WSMessage) (excludeUserID : Nat) : Hub :=
  match db.conversations.find? (fun c => c.id == conversationID) with
  | none => h
  | some conv =>
    let r := fanout (convStep [conv.userAID, conv.userBID] excludeUserID msg)
      h.clients
    { clients := r.1, closed := h.closed ++ r.2 }

/-- services/ws_service.go `Hub.Run`, `register` case: insert the session
into the live map, mark the user online, and broadcast the presence
update (which excludes the user's own sessions). -/
def registerClient (h : Hub) (db : DB) (c : Session) (now : Nat) : Hub × DB :=
  let h1 : Hub :=
    if h.clients.any (fun s => s.id == c.id) then h
    else { h with clients := h.clients ++ [c] }
  let db1 := UpdatePresence db c.userID true now
  (broadcastPresenceUpdate h1 c.userID true now, db1)

/-- services/ws_service.go `Hub.Run`, `unregister` case: when the session is
still in the live map, delete it and close its mailbox; then —
unconditionally — mark the user offline and broadcast the presence
update. -/
def unregisterClient (h : Hub) (db : DB) (c : Session) (now : Nat) : Hub × DB :=
  let h1 : Hub :=
    if h.clients.any (fun s => s.id == c.id) then
      { clients := h.clients.filter (fun s => s.id != c.id),
        closed := h.closed ++ h.clients.filter (fun s => s.id == c.id) }
    else h
  let db1 := UpdatePresence db c.userID false now
  (broadcastPresenceUpdate h1 c.userID false now, db1)

/-- services/ws_service.go `Client.handleSendMessage`, run by the session of
`senderUserID`.  A non-map payload fails the type assertion and the handler
returns; otherwise it extracts text / to_user_id with zero-value fallbacks,
returns when `IsBlocked(sender, recipient)`, finds or creates the
conversation, persists the message with status `sent`, saves the
conversation's last-message pointer, acknowledges the sender with
`message.deliver` and pushes `message.receive` to the recipient. -/
def handleSendMessage (h : Hub) (db : DB) (senderUserID : Nat)
    (frame : WSMessage) : Hub × DB :=
  match frame.payload with
  | .presence _ _ _ => (h, db)
  | .obj fields =>
    let text := getString fields "text"
    let toUserID := getNum fields "to_user_id"
    if IsBlocked db senderUserID toUserID then (h, db)
    else
      let found := findConversation db senderUserID toUserID
      let conv : Conversation :=
        match found with
        | some c => c
        | none =>
          { id := db.nextConvID, userAID := senderUserID, userBID := toUserID,
            lastMessageID := none }
      let db1 : DB :=
        match found with
        | some _ => db
        | none =>
          { db with conversations := db.conversations ++ [conv],
                    nextConvID := db.nextConvID + 1 }
      let m : Message :=
        { id := db1.nextMsgID, conversationID := conv.id,
          fromUserID := senderUserID, toUserID := toUserID, text := text,
          status := .sent, tempID := frame.tempID }
      let db2 : DB :=
        { db1 with messages := db1.messages ++ [m],
                   nextMsgID := db1.nextMsgID + 1 }
      let db3 : DB :=
        { db2 with conversations := db2.conversations.map (fun c2 =>
            if c2.id == conv.id then { conv with lastMessageID := some m.id }
            else c2) }
      let deliverFrame : WSMessage :=
        { type := "message.deliver",
          payload := .obj [("message_id", .num m.id),
                           ("temp_id", .str frame.tempID)],
          tempID := "" }
      let h1 := sendToUser h senderUserID deliverFrame
      let receiveFrame : WSMessage :=
        { type := "message.receive",
          payload := .obj [("id", .num m.id),
                           ("conversation_id", .num conv.id),
                           ("from_user_id", .num m.fromUserID),
                           ("text", .str m.text),
                           ("status", .status m.status)],
          tempID := "" }
      (sendToUser h1 toUserID receiveFrame, db3)

/-- services/ws_service.go `Client.handleReadMessage`, run by the session of
`readerUserID`: load the message by id, return unless it is addressed to the
reader, set its status to `read` (unconditionally, even when already read),
save, and notify the sender's sessions with `message.read`. -/
def handleReadMessage (h : Hub) (db : DB) (readerUserID : Nat)
    (frame : WSMessage) : Hub × DB :=
  match frame.payload with
  | .presence _ _ _ => (h, db)
  | .obj fields =>
    let messageID := getNum fields "message_id"
    match db.messages.find? (fun m => m.id == messageID) with
    | none => (h, db)
    | some m =>
      if m.toUserID != readerUserID then (h, db)
      else
        let db1 : DB :=
          { db with messages := db.messages.map (fun x =>
              if x.id == m.id then { m with status := .read } else x) }
        let readFrame : WSMessage :=
          { type := "message.read",
            payload := .obj [("message_id", .num m.id)], tempID := "" }
        (sendToUser h m.fromUserID readFrame, db1)

/-- routes/participants.go `MessageService.MarkAsRead`: find the message
with `id = ? AND to_user_id = ?` (not-found is the error), set its status to
`read` and save the row (by primary key). -/
def MarkAsRead (db : DB) (messageID userID : Nat) : Except String DB :=
  match db.messages.find? (fun m => m.id == messageID && m.toUserID == userID) with
  | none => .error "record not found"
  | some m =>
    .ok { db with messages := db.messages.map (fun x =>
        if x.id == m.id then { m with status := .read } else x) }

/-- routes/participants.go `MessageService.UpdateMessageStatus`: an
unconditional `UPDATE status WHERE id = ?` with whatever status the caller
supplies. -/
def UpdateMessageStatus (db : DB) (messageID : Nat) (status : MessageStatus) :
    DB :=
  { db with messages := db.messages.map (fun m =>
      if m.id == messageID then { m with status := status } else m) }

/-- routes/participants.go `MessageService.MarkConversationAsRead`: verify
the caller participates in the conversation, then set to `read` every
message of the conversation addressed to the caller whose status is not yet
`read`. -/
def MarkConversationAsRead (db : DB) (conversationID userID : Nat) :
    Except String DB :=
  match db.conversations.find? (fun c =>
      c.id == conversationID && (c.userAID == userID || c.userBID == userID)) with
  | none => .error "record not found"
  | some _ =>
    .ok { db with messages := db.messages.map (fun m =>
        if m.conversationID == conversationID && m.toUserID == userID &&
            m.status != .read then
          { m with status := .read }
        else m) }

/-- Spec-side ordering of statuses along `sent → delivered → read`, used
only to state the monotonicity claim. -/
def statusRank : MessageStatus → Nat
  | .sent => 0
  | .delivered => 1
  | .read => 2

/-- Spec-side statement that a table of messages only moved forward:
same rows, each status at least as advanced as before. -/
def statusAdvances (old new : List Message) : Prop :=
  List.Forall₂ (fun o n => statusRank o.status ≤ statusRank n.status) old new

/-! ## Helper lemmas -/

/-- The pair lookup is symmetric in its two user arguments. -/
lemma findConversation_symm (db : DB) (a b : Nat) :
    findConversation db a b = findConversation db b a := by
  have hp : (fun c : Conversation =>
      (c.userAID == a && c.userBID == b) || (c.userAID == b && c.userBID == a))
      = (fun c : Conversation =>
        (c.userAID == b && c.userBID == a) || (c.userAID == a && c.userBID == b)) := by
    funext c
    exact Bool.or_comm _ _
  unfold findConversation
  rw [hp]

/-- `find?` over a row-wise update that fixes non-matching rows and sends
every matching row to the same (still matching) row. -/
lemma find?_map_update {α : Type} (p : α → Bool) (f : α → α) (l : List α)
    (a : α) (hfind : l.find? p = some a)
    (hfix : ∀ x, p x = false → f x = x)
    (hsame : ∀ x, p x = true → f x = f a)
    (hpa : p (f a) = true) :
    (l.map f).find? p = some (f a) := by
  induction l with
  | nil => simp at hfind
  | cons x xs ih =>
    rw [List.find?_cons] at hfind
    cases hx : p x with
    | true =>
      rw [hx] at hfind
      injection hfind with hax
      subst hax
      simp [List.find?_cons, hsame x hx, hpa]
    | false =>
      rw [hx] at hfind
      have hfx := hfix x hx
      simp [List.find?_cons, hfx, hx, ih hfind]

/-- The fan-out loop in closed form: the surviving sessions are the
`filterMap` of the per-session step, the dropped ones the sessions on which
the step signalled a full mailbox. -/
lemma fanout_eq (step : Session → Option Session) (l : List Session) :
    fanout step l = (l.filterMap step, l.filter (fun s => (step s).isNone)) := by
  induction l with
  | nil => rfl
  | cons s rest ih =>
    cases hs : step s with
    | some s2 => simp [fanout, ih, hs, List.filterMap_cons, List.filter_cons]
    | none => simp [fanout, ih, hs, List.filterMap_cons, List.filter_cons]

/-- When the step succeeds on every live session, the fan-out is a plain map
and nothing is dropped. -/
lemma fanout_eq_map (step : Session → Option Session) (g : Session → Session)
    (l : List Session) (h : ∀ s ∈ l, step s = some (g s)) :
    fanout step l = (l.map g, []) := by
  induction l with
  | nil => rfl
  | cons s rest ih =>
    have hs := h s (by simp)
    simp only [fanout, ih (fun x hx => h x (by simp [hx])), hs, List.map_cons]

/-- `sendToUser` when every session of the target user has room: every such
session gets the frame appended, nobody is dropped. -/
lemma sendToUser_of_room (h : Hub) (uid : Nat) (msg : WSMessage)
    (hroom : ∀ s ∈ h.clients, s.userID = uid → s.mailbox.length < s.capacity) :
    sendToUser h uid msg =
      { clients := h.clients.map (fun s =>
          if s.userID == uid then { s with mailbox := s.mailbox ++ [msg] } else s),
        closed := h.closed } := by
  have hstep : ∀ s ∈ h.clients,
      (if s.userID == uid then trySend s msg else some s) =
        some (if s.userID == uid then { s with mailbox := s.mailbox ++ [msg] } else s) := by
    intro s hs
    by_cases hu : s.userID = uid
    · simp [hu, trySend, hroom s hs hu]
    · simp [hu]
  unfold sendToUser
  rw [fanout_eq_map _ _ _ hstep]
  simp

/-- `broadcastPresenceUpdate` when every session of the other users has
room. -/
lemma broadcastPresenceUpdate_of_room (h : Hub) (uid : Nat) (isOnline : Bool)
    (now : Nat)
    (hroom : ∀ s ∈ h.clients, s.userID ≠ uid → s.mailbox.length < s.capacity) :
    broadcastPresenceUpdate h uid isOnline now =
      { clients := h.clients.map (fun s =>
          if s.userID != uid then
            { s with mailbox := s.mailbox ++ [presenceFrame uid isOnline now] }
          else s),
        closed := h.closed } := by
  have hstep : ∀ s ∈ h.clients,
      (if s.userID != uid then trySend s (presenceFrame uid isOnline now) else some s) =
        some (if s.userID != uid then
          { s with mailbox := s.mailbox ++ [presenceFrame uid isOnline now] } else s) := by
    intro s hs
    by_cases hu : s.userID = uid
    · simp [hu]
    · simp [hu, trySend, hroom s hs hu]
  unfold broadcastPresenceUpdate
  simp only []
  rw [fanout_eq_map _ _ _ hstep]
  simp

/-- After an upsert of user `u`, reading presence for `u` returns exactly
the upserted flag and timestamp. -/
lemma getPresence_updatePresence (db : DB) (u : Nat) (b : Bool) (now : Nat) :
    GetPresence (UpdatePresence db u b now) u =
      .ok { userID := u, isOnline := b, lastSeenAt := now } := by
  unfold GetPresence UpdatePresence
  cases hf : db.presences.find? (fun p => p.userID == u) with
  | some p =>
    simp only [hf]
    rw [find?_map_update (fun p : UserPresence => p.userID == u)
        (fun p => if p.userID == u then { p with isOnline := b, lastSeenAt := now } else p)
        _ p hf]
    · have hpu : p.userID = u := by
        have := List.find?_some hf
        simpa using this
      simp [hpu]
    · intro x hx
      simp [hx]
    · intro x hx
      have hxu : x.userID = u := by simpa using hx
      have hpu : p.userID = u := by
        have := List.find?_some hf
        simpa using this
      simp [hx, hxu, hpu]
    · have hpu : p.userID = u := by
        have := List.find?_some hf
        simpa using this
      simp [hpu]
  | none =>
    simp only [hf]
    rw [List.find?_append]
    rw [hf]
    simp

/-! ## Claim theorems -/

/-- C9 (confirmed): for a user who has never connected — so no presence row
with that user id exists — `GetPresence` succeeds rather than erroring and
returns the offline default: `is_online = false` with the zero last-seen
value. -/
theorem C9_getPresence_never_connected (db : DB) (uid : Nat)
    (hnone : db.presences.find? (fun p => p.userID == uid) = none) :
    GetPresence db uid =
      .ok { userID := uid, isOnline := false, lastSeenAt := 0 } := by
  unfold GetPresence
  rw [hnone]

theorem C9_witness :
    (DB.mk [] [] [] [] 1 1).presences.find? (fun p => p.userID == 5) = none ∧
      GetPresence (DB.mk [] [] [] [] 1 1) 5 =
        .ok { userID := 5, isOnline := false, lastSeenAt := 0 } :=
  ⟨rfl, C9_getPresence_never_connected (DB.mk [] [] [] [] 1 1) 5 rfl⟩

/-- C4 (confirmed): when the caller is not the message's recipient, both
read-marking paths reject the call with the message status unchanged and no
message.read notification: the live-socket handler returns with hub and
database untouched, and the REST-path `MarkAsRead` returns the
record-not-found error without writing anything. -/
theorem C4_nonrecipient_markread_rejected :
    (∀ (h : Hub) (db : DB) (reader : Nat) (fields : List (String × JValue))
        (tid : String) (m : Message),
      db.messages.find? (fun x => x.id == getNum fields "message_id") = some m →
      m.toUserID ≠ reader →
      handleReadMessage h db reader ⟨"message.read", .obj fields, tid⟩ = (h, db)) ∧
    (∀ (db : DB) (mid uid : Nat),
      (∀ x ∈ db.messages, x.id = mid → x.toUserID ≠ uid) →
      MarkAsRead db mid uid = .error "record not found") := by
  constructor
  · intro h db reader fields tid m hfind hne
    unfold handleReadMessage
    simp only []
    rw [hfind]
    simp [hne]
  · intro db mid uid hall
    unfold MarkAsRead
    have hnone : db.messages.find? (fun m => m.id == mid && m.toUserID == uid) = none := by
      rw [List.find?_eq_none]
      intro x hx
      simp only [Bool.and_eq_true, beq_iff_eq, not_and]
      exact hall x hx
    rw [hnone]

theorem C4_witness :
    (let db0 : DB := DB.mk [] []
        [⟨1, 1, 1, 2, "hi", MessageStatus.sent, ""⟩] [] 2 2
     handleReadMessage (Hub.mk [] []) db0 3
        ⟨"message.read", .obj [("message_id", JValue.num 1)], ""⟩ =
        (Hub.mk [] [], db0)) ∧
    MarkAsRead (DB.mk [] [] [⟨1, 1, 1, 2, "hi", MessageStatus.sent, ""⟩] [] 2 2)
        1 3 = .error "record not found" :=
  ⟨C4_nonrecipient_markread_rejected.1 (Hub.mk [] [])
      (DB.mk [] [] [⟨1, 1, 1, 2, "hi", MessageStatus.sent, ""⟩] [] 2 2) 3
      [("message_id", JValue.num 1)] ""
      ⟨1, 1, 1, 2, "hi", MessageStatus.sent, ""⟩ (by decide) (by decide),
   C4_nonrecipient_markread_rejected.2
      (DB.mk [] [] [⟨1, 1, 1, 2, "hi", MessageStatus.sent, ""⟩] [] 2 2) 1 3
      (by decide)⟩

/-- C1 (corrected, counterexample): the claim says a Block between the two
users in either direction prevents the send.  With the single Block row
(blocker = 2, blocked = 1) — the recipient has blocked the sender, so a
Block exists between them — user 1's message.send to user 2 nevertheless
creates a Message row and delivers a message.receive frame to user 2's live
session. -/
theorem C1_counterexample :
    let db0 : DB := ⟨[⟨2, 1⟩], [], [], [], 1, 1⟩
    let h0 : Hub := ⟨[⟨20, 2, [], 4⟩], []⟩
    let r := handleSendMessage h0 db0 1
      ⟨"message.send", .obj [("text", .str "hi"), ("to_user_id", .num 2)], "t1"⟩
    r.2.messages.length = 1 ∧
      ∃ s ∈ r.1.clients, s.userID = 2 ∧
        ∃ f ∈ s.mailbox, f.type = "message.receive" := by
  decide

/-- C1 (amended): only a Block in the sender-to-recipient direction guards
the send path.  When a Block row with blocker = sender and blocked =
recipient exists, `handleSendMessage` returns with the database and the hub
untouched: no Message row is created and no frame is delivered to any
session. -/
theorem C1_blocked_sender_send_rejected (h : Hub) (db : DB) (sender : Nat)
    (fields : List (String × JValue)) (tid : String)
    (hb : IsBlocked db sender (getNum fields "to_user_id") = true) :
    handleSendMessage h db sender ⟨"message.send", .obj fields, tid⟩ = (h, db) := by
  unfold handleSendMessage
  simp only []
  rw [hb]
  simp

theorem C1_witness :
    IsBlocked (DB.mk [⟨1, 2⟩] [] [] [] 1 1) 1
        (getNum [("to_user_id", JValue.num 2)] "to_user_id") = true ∧
      handleSendMessage (Hub.mk [] []) (DB.mk [⟨1, 2⟩] [] [] [] 1 1) 1
        ⟨"message.send", .obj [("to_user_id", JValue.num 2)], ""⟩ =
        (Hub.mk [] [], DB.mk [⟨1, 2⟩] [] [] [] 1 1) :=
  ⟨by decide,
   C1_blocked_sender_send_rejected (Hub.mk [] []) (DB.mk [⟨1, 2⟩] [] [] [] 1 1)
     1 [("to_user_id", JValue.num 2)] "" (by decide)⟩

/-- C2 (confirmed): with no Block between users A and B in either
direction, `GetOrCreate(A,B)` followed by `GetOrCreate(B,A)` yields the
identical Conversation row: the lookup matches the unordered pair in either
participant order, so the second, swapped call finds the row returned by
the first call and leaves the database unchanged instead of creating a new
row. -/
theorem C2_getOrCreate_symmetric (db : DB) (a b : Nat) (c1 : Conversation)
    (db1 : DB)
    (hab : IsBlocked db a b = false) (hba : IsBlocked db b a = false)
    (h1 : GetOrCreateConversation db a b = .ok (c1, db1)) :
    GetOrCreateConversation db1 b a = .ok (c1, db1) := by
  unfold GetOrCreateConversation at h1 ⊢
  rw [hab] at h1
  simp only [Bool.false_eq_true, if_false] at h1
  cases hf : findConversation db a b with
  | some c =>
    rw [hf] at h1
    injection h1 with h2
    injection h2 with hc hdb
    subst hc
    subst hdb
    rw [hba]
    simp only [Bool.false_eq_true, if_false]
    rw [← findConversation_symm, hf]
  | none =>
    rw [hf] at h1
    injection h1 with h2
    injection h2 with hc hdb
    have hblocks : db1.blocks = db.blocks := by rw [← hdb]
    have hconvs : db1.conversations = db.conversations ++ [c1] := by
      rw [← hdb, ← hc]
    have hba2 : IsBlocked db1 b a = false := by
      unfold IsBlocked
      rw [hblocks]
      exact hba
    rw [hba2]
    simp only [Bool.false_eq_true, if_false]
    have hsym : findConversation db b a = none := by
      rw [← findConversation_symm]
      exact hf
    have hfind2 : findConversation db1 b a = some c1 := by
      unfold findConversation
      rw [hconvs, List.find?_append]
      unfold findConversation at hsym
      rw [hsym]
      have hpa : c1.userAID = a := by rw [← hc]
      have hpb : c1.userBID = b := by rw [← hc]
      simp [List.find?_cons, hpa, hpb]
    rw [hfind2]

theorem C2_witness :
    GetOrCreateConversation
        (DB.mk [] [⟨1, 1, 2, none⟩] [] [] 2 1) 2 1 =
      .ok (⟨1, 1, 2, none⟩, DB.mk [] [⟨1, 1, 2, none⟩] [] [] 2 1) :=
  C2_getOrCreate_symmetric (DB.mk [] [] [] [] 1 1) 1 2
    ⟨1, 1, 2, none⟩ (DB.mk [] [⟨1, 1, 2, none⟩] [] [] 2 1)
    (by decide) (by decide) rfl


/-- C7 (corrected, counterexample): the claim says every live session other
than the one being registered receives exactly one presence.update.  Here a
session of user 7 is already live, and a second session of the same user 7
registers: the pre-existing session — a live session other than the one
being registered — receives no presence.update at all, because the
broadcast excludes by user id rather than by session. -/
theorem C7_counterexample :
    ((((registerClient (Hub.mk [⟨1, 7, [], 4⟩] []) (DB.mk [] [] [] [] 1 1)
          ⟨2, 7, [], 4⟩ 5).1).clients.find? (fun s => s.id == 1)).map
        (fun s => s.mailbox.length)) = some 0 := by
  decide

/-- C7 (amended): after `Register(session)` of a fresh session into a hub
whose mailboxes have room, the session is in the live set, its user is
marked online in the presence store (last-seen = now), no mailbox is
closed, and every live session belonging to a **different** user receives
exactly one presence.update frame with is_online = true; sessions of the
same user (including the registered one) receive nothing. -/
theorem C7_register_presence (h : Hub) (db : DB) (c : Session) (now : Nat)
    (hnew : ∀ s ∈ h.clients, s.id ≠ c.id)
    (hroom : ∀ s ∈ h.clients, s.mailbox.length < s.capacity) :
    c ∈ (registerClient h db c now).1.clients ∧
    GetPresence (registerClient h db c now).2 c.userID =
      .ok { userID := c.userID, isOnline := true, lastSeenAt := now } ∧
    (registerClient h db c now).1.closed = h.closed ∧
    (registerClient h db c now).1.clients = (h.clients ++ [c]).map (fun s =>
      if s.userID != c.userID then
        { s with mailbox := s.mailbox ++ [presenceFrame c.userID true now] }
      else s) := by
  have hany : (h.clients.any fun s => s.id == c.id) = false := by
    simp only [List.any_eq_false]
    intro s hs
    simpa using hnew s hs
  have hclients : (registerClient h db c now).1 =
      broadcastPresenceUpdate { h with clients := h.clients ++ [c] }
        c.userID true now := by
    unfold registerClient
    rw [hany]
    simp
  have hdb2 : (registerClient h db c now).2 = UpdatePresence db c.userID true now := rfl
  have hbr : broadcastPresenceUpdate { h with clients := h.clients ++ [c] }
      c.userID true now =
      { clients := (h.clients ++ [c]).map (fun s =>
          if s.userID != c.userID then
            { s with mailbox := s.mailbox ++ [presenceFrame c.userID true now] }
          else s),
        closed := h.closed } := by
    apply broadcastPresenceUpdate_of_room
    intro s hs hsne
    rcases List.mem_append.mp hs with hs1 | hs2
    · exact hroom s hs1
    · rw [List.mem_singleton] at hs2
      subst hs2
      exact absurd rfl hsne
  refine ⟨?_, ?_, ?_, ?_⟩
  · rw [hclients, hbr]
    refine List.mem_map.mpr ⟨c, by simp, by simp⟩
  · rw [hdb2]
    exact getPresence_updatePresence db c.userID true now
  · rw [hclients, hbr]
  · rw [hclients, hbr]

theorem C7_witness :
    (∀ s ∈ (Hub.mk [⟨1, 9, [], 4⟩] []).clients, s.id ≠ (2 : Nat)) ∧
    ⟨2, 7, [], 4⟩ ∈ (registerClient (Hub.mk [⟨1, 9, [], 4⟩] [])
        (DB.mk [] [] [] [] 1 1) ⟨2, 7, [], 4⟩ 5).1.clients ∧
    GetPresence (registerClient (Hub.mk [⟨1, 9, [], 4⟩] [])
        (DB.mk [] [] [] [] 1 1) ⟨2, 7, [], 4⟩ 5).2 7 =
      .ok { userID := 7, isOnline := true, lastSeenAt := 5 } :=
  ⟨by decide,
   (C7_register_presence (Hub.mk [⟨1, 9, [], 4⟩] []) (DB.mk [] [] [] [] 1 1)
      ⟨2, 7, [], 4⟩ 5 (by decide) (by decide)).1,
   (C7_register_presence (Hub.mk [⟨1, 9, [], 4⟩] []) (DB.mk [] [] [] [] 1 1)
      ⟨2, 7, [], 4⟩ 5 (by decide) (by decide)).2.1⟩

/-- C8 (corrected, counterexample): the claim says a second Unregister of
the same session is a no-op that changes no presence state and emits no
events.  Concretely: users 1 and 2 each have one live session; session 2 is
unregistered at time 10 and again at time 20.  The second call refreshes
the presence row's last-seen from 10 to 20 and delivers a second
presence.update frame to user 1's surviving session. -/
theorem C8_counterexample :
    GetPresence (unregisterClient (Hub.mk [⟨1, 1, [], 4⟩, ⟨2, 2, [], 4⟩] [])
        (DB.mk [] [] [] [] 1 1) ⟨2, 2, [], 4⟩ 10).2 2 =
      .ok { userID := 2, isOnline := false, lastSeenAt := 10 } ∧
    GetPresence (unregisterClient
        (unregisterClient (Hub.mk [⟨1, 1, [], 4⟩, ⟨2, 2, [], 4⟩] [])
          (DB.mk [] [] [] [] 1 1) ⟨2, 2, [], 4⟩ 10).1
        (unregisterClient (Hub.mk [⟨1, 1, [], 4⟩, ⟨2, 2, [], 4⟩] [])
          (DB.mk [] [] [] [] 1 1) ⟨2, 2, [], 4⟩ 10).2 ⟨2, 2, [], 4⟩ 20).2 2 =
      .ok { userID := 2, isOnline := false, lastSeenAt := 20 } ∧
    (((unregisterClient (Hub.mk [⟨1, 1, [], 4⟩, ⟨2, 2, [], 4⟩] [])
        (DB.mk [] [] [] [] 1 1) ⟨2, 2, [], 4⟩ 10).1.clients.find?
          (fun s => s.id == 1)).map (fun s => s.mailbox.length)) = some 1 ∧
    (((unregisterClient
        (unregisterClient (Hub.mk [⟨1, 1, [], 4⟩, ⟨2, 2, [], 4⟩] [])
          (DB.mk [] [] [] [] 1 1) ⟨2, 2, [], 4⟩ 10).1
        (unregisterClient (Hub.mk [⟨1, 1, [], 4⟩, ⟨2, 2, [], 4⟩] [])
          (DB.mk [] [] [] [] 1 1) ⟨2, 2, [], 4⟩ 10).2
        ⟨2, 2, [], 4⟩ 20).1.clients.find? (fun s => s.id == 1)).map
      (fun s => s.mailbox.length)) = some 2 := by
  refine ⟨rfl, rfl, by decide, by decide⟩

/-- C8 (amended): a second `Unregister(session)` — the session is no longer
in the live set — leaves the registry membership unchanged and does not
close any mailbox again, but it is not a no-op: it re-marks the user
offline (refreshing last-seen to the current time) and re-broadcasts a
presence.update frame with is_online = false to every live session of the
other users. -/
theorem C8_unregister_twice (h : Hub) (db : DB) (c : Session) (now : Nat)
    (hgone : ∀ s ∈ h.clients, s.id ≠ c.id)
    (hroom : ∀ s ∈ h.clients, s.mailbox.length < s.capacity) :
    (unregisterClient h db c now).1.closed = h.closed ∧
    (unregisterClient h db c now).2 = UpdatePresence db c.userID false now ∧
    GetPresence (unregisterClient h db c now).2 c.userID =
      .ok { userID := c.userID, isOnline := false, lastSeenAt := now } ∧
    (unregisterClient h db c now).1.clients = h.clients.map (fun s =>
      if s.userID != c.userID then
        { s with mailbox := s.mailbox ++ [presenceFrame c.userID false now] }
      else s) := by
  have hany : (h.clients.any fun s => s.id == c.id) = false := by
    simp only [List.any_eq_false]
    intro s hs
    simpa using hgone s hs
  have hclients : (unregisterClient h db c now).1 =
      broadcastPresenceUpdate h c.userID false now := by
    unfold unregisterClient
    rw [hany]
    simp
  have hdb2 : (unregisterClient h db c now).2 =
      UpdatePresence db c.userID false now := rfl
  have hbr : broadcastPresenceUpdate h c.userID false now =
      { clients := h.clients.map (fun s =>
          if s.userID != c.userID then
            { s with mailbox := s.mailbox ++ [presenceFrame c.userID false now] }
          else s),
        closed := h.closed } := by
    apply broadcastPresenceUpdate_of_room
    intro s hs _
    exact hroom s hs
  refine ⟨?_, hdb2, ?_, ?_⟩
  · rw [hclients, hbr]
  · rw [hdb2]
    exact getPresence_updatePresence db c.userID false now
  · rw [hclients, hbr]

theorem C8_witness :
    (∀ s ∈ (Hub.mk [⟨1, 1, [], 4⟩] []).clients, s.id ≠ (2 : Nat)) ∧
    (unregisterClient (Hub.mk [⟨1, 1, [], 4⟩] []) (DB.mk [] [] [] [] 1 1)
        ⟨2, 2, [], 4⟩ 20).1.closed = [] ∧
    GetPresence (unregisterClient (Hub.mk [⟨1, 1, [], 4⟩] [])
        (DB.mk [] [] [] [] 1 1) ⟨2, 2, [], 4⟩ 20).2 2 =
      .ok { userID := 2, isOnline := false, lastSeenAt := 20 } :=
  ⟨by decide,
   (C8_unregister_twice (Hub.mk [⟨1, 1, [], 4⟩] []) (DB.mk [] [] [] [] 1 1)
      ⟨2, 2, [], 4⟩ 20 (by decide) (by decide)).1,
   (C8_unregister_twice (Hub.mk [⟨1, 1, [], 4⟩] []) (DB.mk [] [] [] [] 1 1)
      ⟨2, 2, [], 4⟩ 20 (by decide) (by decide)).2.2.1⟩


/-- Every status rank is at most the rank of `read`. -/
lemma statusRank_le_read (st : MessageStatus) : statusRank st ≤ 2 := by
  cases st <;> simp [statusRank]

/-- A table is status-monotone relative to itself. -/
lemma statusAdvances_refl (l : List Message) : statusAdvances l l :=
  List.forall₂_same.mpr fun _ _ => le_refl _

/-- A row-wise update that never lowers a row's status rank is
status-monotone. -/
lemma statusAdvances_map (l : List Message) (f : Message → Message)
    (hf : ∀ x, statusRank x.status ≤ statusRank (f x).status) :
    statusAdvances l (l.map f) := by
  induction l with
  | nil => exact List.Forall₂.nil
  | cons x xs ih => exact List.Forall₂.cons (hf x) ih

/-- C5 (corrected, counterexample): the claim says no exposed operation
ever moves a message's status backward.  `UpdateMessageStatus` is exposed
and writes whatever status the caller supplies: applied with status `sent`
to a message whose status is `read`, it moves the status backward from
`read` to `sent`. -/
theorem C5_counterexample :
    (UpdateMessageStatus
        (DB.mk [] [] [⟨1, 1, 1, 2, "x", MessageStatus.read, ""⟩] [] 1 2)
        1 MessageStatus.sent).messages =
      [⟨1, 1, 1, 2, "x", MessageStatus.sent, ""⟩] ∧
    ¬ statusAdvances [⟨1, 1, 1, 2, "x", MessageStatus.read, ""⟩]
        [⟨1, 1, 1, 2, "x", MessageStatus.sent, ""⟩] := by
  refine ⟨by decide, ?_⟩
  intro hadv
  cases hadv with
  | cons h1 _ => simp [statusRank] at h1

/-- C5 (amended): the read-marking operations (`MarkAsRead`,
`MarkConversationAsRead`, and the live-socket read handler) only ever move
statuses forward — they write nothing but `read` — but `UpdateMessageStatus`
writes exactly the status its caller supplies, without any forward-only
guard, so it can regress a message. -/
theorem C5_status_monotone_except_update :
    (∀ (db : DB) (mid uid : Nat) (db2 : DB),
        MarkAsRead db mid uid = .ok db2 →
          statusAdvances db.messages db2.messages) ∧
    (∀ (db : DB) (cid uid : Nat) (db2 : DB),
        MarkConversationAsRead db cid uid = .ok db2 →
          statusAdvances db.messages db2.messages) ∧
    (∀ (h : Hub) (db : DB) (reader : Nat) (frame : WSMessage),
        statusAdvances db.messages
          (handleReadMessage h db reader frame).2.messages) ∧
    (∀ (db : DB) (mid : Nat) (st : MessageStatus),
        ∀ m2 ∈ (UpdateMessageStatus db mid st).messages,
          m2.id = mid → m2.status = st) := by
  refine ⟨?_, ?_, ?_, ?_⟩
  · intro db mid uid db2 hok
    unfold MarkAsRead at hok
    cases hfind : db.messages.find? (fun m => m.id == mid && m.toUserID == uid) with
    | none => rw [hfind] at hok; exact absurd hok (by simp)
    | some m =>
      rw [hfind] at hok
      injection hok with h2
      rw [← h2]
      apply statusAdvances_map
      intro x
      by_cases hx : x.id = m.id
      · simp only [hx, beq_self_eq_true, if_true]
        exact statusRank_le_read x.status
      · simp [hx]
  · intro db cid uid db2 hok
    unfold MarkConversationAsRead at hok
    cases hfind : db.conversations.find? (fun c =>
        c.id == cid && (c.userAID == uid || c.userBID == uid)) with
    | none => rw [hfind] at hok; exact absurd hok (by simp)
    | some cnv =>
      rw [hfind] at hok
      injection hok with h2
      rw [← h2]
      apply statusAdvances_map
      intro x
      by_cases hx : x.conversationID = cid ∧ x.toUserID = uid ∧ x.status ≠ .read
      · obtain ⟨h3, h4, h5⟩ := hx
        simp only [h3, h4, beq_self_eq_true, Bool.true_and, bne_iff_ne, ne_eq, h5,
          not_false_eq_true, if_true]
        exact statusRank_le_read x.status
      · by_cases hc : (x.conversationID == cid && x.toUserID == uid &&
            x.status != MessageStatus.read) = true
        · simp only [hc, if_true]
          exact statusRank_le_read x.status
        · simp only [Bool.not_eq_true] at hc
          simp [hc]
  · intro h db reader frame
    obtain ⟨ftype, fpayload, ftid⟩ := frame
    cases fpayload with
    | presence u o t => exact statusAdvances_refl _
    | obj fields =>
      unfold handleReadMessage
      simp only []
      cases hfind : db.messages.find? (fun m =>
          m.id == getNum fields "message_id") with
      | none => exact statusAdvances_refl _
      | some m =>
        by_cases hne : m.toUserID = reader
        · simp only [hne, bne_self_eq_false, Bool.false_eq_true, if_false]
          apply statusAdvances_map
          intro x
          by_cases hx : x.id = m.id
          · simp only [hx, beq_self_eq_true, if_true]
            exact statusRank_le_read x.status
          · simp [hx]
        · have hb : (m.toUserID != reader) = true := by simp [hne]
          simp only [hb, if_true]
          exact statusAdvances_refl _
  · intro db mid st m2 hm2 hid
    unfold UpdateMessageStatus at hm2
    simp only [List.mem_map] at hm2
    obtain ⟨x, hx, hfx⟩ := hm2
    by_cases h : x.id = mid
    · simp only [h, beq_self_eq_true, if_true] at hfx
      rw [← hfx]
    · simp only [h, beq_iff_eq, if_neg h] at hfx
      rw [← hfx] at hid
      exact absurd hid h

theorem C5_witness :
    MarkAsRead (DB.mk [] [] [⟨1, 1, 1, 2, "m", MessageStatus.sent, ""⟩] [] 1 2)
        1 2 =
      .ok (DB.mk [] [] [⟨1, 1, 1, 2, "m", MessageStatus.read, ""⟩] [] 1 2) ∧
    statusAdvances [⟨1, 1, 1, 2, "m", MessageStatus.sent, ""⟩]
      [⟨1, 1, 1, 2, "m", MessageStatus.read, ""⟩] ∧
    ((⟨1, 1, 1, 2, "m", MessageStatus.sent, ""⟩ : Message) ∈
        (UpdateMessageStatus
          (DB.mk [] [] [⟨1, 1, 1, 2, "m", MessageStatus.read, ""⟩] [] 1 2)
          1 MessageStatus.sent).messages →
      (1 : Nat) = 1 → MessageStatus.sent = MessageStatus.sent) :=
  ⟨rfl,
   C5_status_monotone_except_update.1
     (DB.mk [] [] [⟨1, 1, 1, 2, "m", MessageStatus.sent, ""⟩] [] 1 2) 1 2
     (DB.mk [] [] [⟨1, 1, 1, 2, "m", MessageStatus.read, ""⟩] [] 1 2) rfl,
   fun hmem => C5_status_monotone_except_update.2.2.2
     (DB.mk [] [] [⟨1, 1, 1, 2, "m", MessageStatus.read, ""⟩] [] 1 2) 1
     MessageStatus.sent ⟨1, 1, 1, 2, "m", MessageStatus.sent, ""⟩ hmem⟩


/-- C10 (confirmed): a message.send frame whose payload omits `to_user_id`
(or carries a non-numeric value for it) is not rejected: the discarded type
assertion yields recipient id 0, and — absent a block row or existing
conversation for the pair (sender, 0) — the handler still creates and
persists a Conversation with participant id 0 and a Message addressed to
user 0 carrying whatever text was supplied.  There is no validation that
the recipient is a real, non-zero user. -/
theorem C10_zero_recipient (h : Hub) (db : DB) (sender : Nat)
    (fields : List (String × JValue)) (tid : String)
    (hzero : getNum fields "to_user_id" = 0)
    (hnb : IsBlocked db sender 0 = false)
    (hnc : findConversation db sender 0 = none) :
    (∀ (fs : List (String × JValue)) (k : String),
        fs.lookup k = none → getNum fs k = 0) ∧
    (∀ (fs : List (String × JValue)) (k s2 : String),
        fs.lookup k = some (.str s2) → getNum fs k = 0) ∧
    (∃ c ∈ (handleSendMessage h db sender
        ⟨"message.send", .obj fields, tid⟩).2.conversations,
      c.userAID = sender ∧ c.userBID = 0) ∧
    (∃ m ∈ (handleSendMessage h db sender
        ⟨"message.send", .obj fields, tid⟩).2.messages,
      m.fromUserID = sender ∧ m.toUserID = 0 ∧
        m.text = getString fields "text" ∧ m.tempID = tid) := by
  refine ⟨?_, ?_, ?_, ?_⟩
  · intro fs k hk
    unfold getNum
    rw [hk]
  · intro fs k s2 hk
    unfold getNum
    rw [hk]
  · unfold handleSendMessage
    simp only [hzero, hnb, hnc, Bool.false_eq_true, if_false]
    refine ⟨_, List.mem_map.mpr
      ⟨_, List.mem_append_right _ (List.mem_singleton.mpr rfl), rfl⟩, ?_, ?_⟩
    · simp
    · simp
  · unfold handleSendMessage
    simp only [hzero, hnb, hnc, Bool.false_eq_true, if_false]
    exact ⟨_, List.mem_append_right _ (List.mem_singleton.mpr rfl),
      rfl, rfl, rfl, rfl⟩

theorem C10_witness :
    getNum [("text", JValue.str "yo")] "to_user_id" = 0 ∧
    (∃ c ∈ (handleSendMessage (Hub.mk [] []) (DB.mk [] [] [] [] 1 1) 3
        ⟨"message.send", .obj [("text", JValue.str "yo")], "z"⟩).2.conversations,
      c.userAID = 3 ∧ c.userBID = 0) ∧
    (∃ m ∈ (handleSendMessage (Hub.mk [] []) (DB.mk [] [] [] [] 1 1) 3
        ⟨"message.send", .obj [("text", JValue.str "yo")], "z"⟩).2.messages,
      m.fromUserID = 3 ∧ m.toUserID = 0 ∧
        m.text = getString [("text", JValue.str "yo")] "text" ∧ m.tempID = "z") :=
  ⟨rfl,
   (C10_zero_recipient (Hub.mk [] []) (DB.mk [] [] [] [] 1 1) 3
      [("text", JValue.str "yo")] "z" rfl rfl rfl).2.2.1,
   (C10_zero_recipient (Hub.mk [] []) (DB.mk [] [] [] [] 1 1) 3
      [("text", JValue.str "yo")] "z" rfl rfl rfl).2.2.2⟩


/-- With distinct participants, the per-client step of the conversation
fan-out is the ordinary targeted non-blocking send: a client matches at
most one of the two participant ids, so at most one send fires. -/
lemma convStep_eq_sendStep (a b excl : Nat) (msg : WSMessage) (s : Session)
    (hab : a ≠ b) :
    convStep [a, b] excl msg s =
      (if (s.userID == a || s.userID == b) && s.userID != excl
       then trySend s msg else some s) := by
  obtain ⟨sid, suid, smb, scap⟩ := s
  unfold convStep trySend
  simp only [List.foldl_cons, List.foldl_nil]
  by_cases hea : suid = a
  · subst hea
    by_cases hex : suid = excl
    · subst hex
      simp [hab]
    · by_cases hlen : smb.length < scap
      · simp [hex, hlen, hab]
      · simp [hex, hlen]
  · by_cases heb : suid = b
    · subst heb
      by_cases hex : suid = excl
      · subst hex
        simp [hea]
      · simp [hea, hex]
    · simp [hea, heb]

/-- C6 (confirmed): every fan-out operation — SendToUser, the broadcast
loop, the presence broadcast, and SendToConversation (with its two distinct
participants) — handles each live session independently and non-blocking:
a targeted session whose mailbox is full is closed and dropped from the
live set, every other targeted session with room gets exactly the event
appended, and non-targeted sessions are untouched.  The last three
conjuncts state the slow-consumer isolation explicitly for SendToUser. -/
theorem C6_slow_consumer_isolation :
    (∀ (h : Hub) (uid : Nat) (msg : WSMessage),
        sendToUser h uid msg =
          { clients := h.clients.filterMap (fun s =>
              if s.userID == uid then trySend s msg else some s),
            closed := h.closed ++ h.clients.filter (fun s =>
              (if s.userID == uid then trySend s msg else some s).isNone) }) ∧
    (∀ (h : Hub) (msg : WSMessage),
        broadcastAll h msg =
          { clients := h.clients.filterMap (fun s => trySend s msg),
            closed := h.closed ++ h.clients.filter (fun s =>
              (trySend s msg).isNone) }) ∧
    (∀ (h : Hub) (uid : Nat) (isOnline : Bool) (now : Nat),
        broadcastPresenceUpdate h uid isOnline now =
          { clients := h.clients.filterMap (fun s =>
              if s.userID != uid then trySend s (presenceFrame uid isOnline now)
              else some s),
            closed := h.closed ++ h.clients.filter (fun s =>
              (if s.userID != uid then
                trySend s (presenceFrame uid isOnline now)
              else some s).isNone) }) ∧
    (∀ (db : DB) (h : Hub) (cid : Nat) (msg : WSMessage) (excl : Nat)
        (conv : Conversation),
        db.conversations.find? (fun c => c.id == cid) = some conv →
        conv.userAID ≠ conv.userBID →
        sendToConversation db h cid msg excl =
          { clients := h.clients.filterMap (fun s =>
              if (s.userID == conv.userAID || s.userID == conv.userBID) &&
                  s.userID != excl then trySend s msg else some s),
            closed := h.closed ++ h.clients.filter (fun s =>
              (if (s.userID == conv.userAID || s.userID == conv.userBID) &&
                  s.userID != excl then trySend s msg else some s).isNone) }) ∧
    (∀ (h : Hub) (uid : Nat) (msg : WSMessage) (s : Session), s ∈ h.clients →
        s.userID = uid → s.capacity ≤ s.mailbox.length →
        s ∈ (sendToUser h uid msg).closed) ∧
    (∀ (h : Hub) (uid : Nat) (msg : WSMessage) (s : Session), s ∈ h.clients →
        s.userID = uid → s.mailbox.length < s.capacity →
        { s with mailbox := s.mailbox ++ [msg] } ∈ (sendToUser h uid msg).clients) ∧
    (∀ (h : Hub) (uid : Nat) (msg : WSMessage) (s : Session), s ∈ h.clients →
        s.userID ≠ uid → s ∈ (sendToUser h uid msg).clients) := by
  have hsu : ∀ (h : Hub) (uid : Nat) (msg : WSMessage),
      sendToUser h uid msg =
        { clients := h.clients.filterMap (fun s =>
            if s.userID == uid then trySend s msg else some s),
          closed := h.closed ++ h.clients.filter (fun s =>
            (if s.userID == uid then trySend s msg else some s).isNone) } := by
    intro h uid msg
    unfold sendToUser
    rw [fanout_eq]
  refine ⟨hsu, ?_, ?_, ?_, ?_, ?_, ?_⟩
  · intro h msg
    unfold broadcastAll
    rw [fanout_eq]
  · intro h uid isOnline now
    unfold broadcastPresenceUpdate
    simp only []
    rw [fanout_eq]
  · intro db h cid msg excl conv hfind hab
    unfold sendToConversation
    rw [hfind]
    have hcs : convStep [conv.userAID, conv.userBID] excl msg =
        (fun s => if (s.userID == conv.userAID || s.userID == conv.userBID) &&
            s.userID != excl then trySend s msg else some s) :=
      funext fun s => convStep_eq_sendStep conv.userAID conv.userBID excl msg s hab
    simp only [hcs, fanout_eq]
  · intro h uid msg s hs hsu2 hfull
    rw [hsu]
    refine List.mem_append_right _ (List.mem_filter.mpr ⟨hs, ?_⟩)
    have : trySend s msg = none := by
      unfold trySend
      simp [Nat.not_lt.mpr hfull]
    simp [hsu2, this]
  · intro h uid msg s hs hsu2 hroom
    rw [hsu]
    refine List.mem_filterMap.mpr ⟨s, hs, ?_⟩
    simp [hsu2, trySend, hroom]
  · intro h uid msg s hs hne
    rw [hsu]
    refine List.mem_filterMap.mpr ⟨s, hs, ?_⟩
    simp [hne]

theorem C6_witness :
    (⟨1, 2, [], 0⟩ : Session) ∈
      (sendToUser (Hub.mk [⟨1, 2, [], 0⟩] []) 2 ⟨"ping", .obj [], ""⟩).closed ∧
    (⟨3, 2, [⟨"ping", .obj [], ""⟩], 4⟩ : Session) ∈
      (sendToUser (Hub.mk [⟨3, 2, [], 4⟩] []) 2 ⟨"ping", .obj [], ""⟩).clients ∧
    (⟨4, 9, [], 4⟩ : Session) ∈
      (sendToUser (Hub.mk [⟨4, 9, [], 4⟩] []) 2 ⟨"ping", .obj [], ""⟩).clients ∧
    sendToConversation (DB.mk [] [⟨5, 1, 2, none⟩] [] [] 6 1) (Hub.mk [] [])
        5 ⟨"ping", .obj [], ""⟩ 0 = Hub.mk [] [] :=
  ⟨C6_slow_consumer_isolation.2.2.2.2.1 (Hub.mk [⟨1, 2, [], 0⟩] []) 2
      ⟨"ping", .obj [], ""⟩ ⟨1, 2, [], 0⟩ (by simp) rfl (by decide),
   C6_slow_consumer_isolation.2.2.2.2.2.1 (Hub.mk [⟨3, 2, [], 4⟩] []) 2
      ⟨"ping", .obj [], ""⟩ ⟨3, 2, [], 4⟩ (by simp) rfl (by decide),
   C6_slow_consumer_isolation.2.2.2.2.2.2 (Hub.mk [⟨4, 9, [], 4⟩] []) 2
      ⟨"ping", .obj [], ""⟩ ⟨4, 9, [], 4⟩ (by simp) (by decide),
   C6_slow_consumer_isolation.2.2.2.1 (DB.mk [] [⟨5, 1, 2, none⟩] [] [] 6 1)
      (Hub.mk [] []) 5 ⟨"ping", .obj [], ""⟩ 0 ⟨5, 1, 2, none⟩ (by decide)
      (by decide)⟩


/-- Sending the same frame twice to a user whose sessions all have room for
two more frames enqueues exactly two copies per session and drops
nobody. -/
lemma sendToUser_twice_of_room (h : Hub) (uid : Nat) (msg : WSMessage)
    (hroom : ∀ s ∈ h.clients, s.mailbox.length + 2 ≤ s.capacity) :
    sendToUser (sendToUser h uid msg) uid msg =
      { clients := h.clients.map (fun s =>
          if s.userID == uid then { s with mailbox := s.mailbox ++ [msg, msg] }
          else s),
        closed := h.closed } := by
  have hroom1 : ∀ s ∈ h.clients, s.userID = uid →
      s.mailbox.length < s.capacity := by
    intro s hs _
    have := hroom s hs
    omega
  have h1 := sendToUser_of_room h uid msg hroom1
  rw [h1]
  have h2 : ∀ s ∈ (h.clients.map (fun s =>
      if s.userID == uid then { s with mailbox := s.mailbox ++ [msg] } else s)),
      s.userID = uid → s.mailbox.length < s.capacity := by
    intro s hs _
    rw [List.mem_map] at hs
    obtain ⟨x, hx, hgx⟩ := hs
    have hx2 := hroom x hx
    rw [← hgx]
    by_cases hxu : x.userID = uid
    · simp only [hxu, beq_self_eq_true, if_true, List.length_append,
        List.length_cons, List.length_nil]
      omega
    · have hb : (x.userID == uid) = false := by simp [hxu]
      simp only [hb, Bool.false_eq_true, if_false]
      omega
  have h3 : sendToUser
      { clients := h.clients.map (fun s =>
          if s.userID == uid then { s with mailbox := s.mailbox ++ [msg] }
          else s),
        closed := h.closed } uid msg =
      { clients := (h.clients.map (fun s =>
          if s.userID == uid then { s with mailbox := s.mailbox ++ [msg] }
          else s)).map (fun s =>
          if s.userID == uid then { s with mailbox := s.mailbox ++ [msg] }
          else s),
        closed := h.closed } :=
    sendToUser_of_room _ uid msg h2
  rw [h3]
  have hg : ((fun s : Session =>
      if s.userID == uid then { s with mailbox := s.mailbox ++ [msg] } else s) ∘
      (fun s : Session =>
      if s.userID == uid then { s with mailbox := s.mailbox ++ [msg] } else s)) =
      (fun s : Session =>
        if s.userID == uid then { s with mailbox := s.mailbox ++ [msg, msg] }
        else s) := by
    funext x
    by_cases hxu : x.userID = uid
    · simp [Function.comp, hxu]
    · simp [Function.comp, hxu]
  rw [List.map_map, hg]

/-- C3 (corrected, counterexample): the claim says two MarkRead calls on
the same message by its recipient produce exactly one message.read
notification to the sender.  Concretely — message 1 from user 1 to user 2,
the sender's single session live — after user 2's session handles the same
message.read frame twice, the sender's session mailbox holds **two**
message.read frames. -/
theorem C3_counterexample :
    ((handleReadMessage
        (handleReadMessage (Hub.mk [⟨10, 1, [], 4⟩] [])
          (DB.mk [] [] [⟨1, 1, 1, 2, "hi", MessageStatus.sent, ""⟩] [] 2 2) 2
          ⟨"message.read", .obj [("message_id", JValue.num 1)], ""⟩).1
        (handleReadMessage (Hub.mk [⟨10, 1, [], 4⟩] [])
          (DB.mk [] [] [⟨1, 1, 1, 2, "hi", MessageStatus.sent, ""⟩] [] 2 2) 2
          ⟨"message.read", .obj [("message_id", JValue.num 1)], ""⟩).2 2
        ⟨"message.read", .obj [("message_id", JValue.num 1)], ""⟩).1.clients.find?
      (fun s => s.id == 10)).map (fun s =>
        (s.mailbox.filter (fun f => f.type == "message.read")).length) =
      some 2 := by
  decide

/-- C3 (amended): re-marking is idempotent on the persisted state — the
second call leaves the message table exactly as the first left it, the
status being already `read` — but the notification is **not** deduplicated:
each successful call pushes one message.read frame to every live session of
the sender, so the two calls together deliver two notifications, not
one. -/
theorem C3_markread_twice (h : Hub) (db : DB) (reader : Nat)
    (fields : List (String × JValue)) (tid : String) (m : Message)
    (hfind : db.messages.find? (fun x => x.id == getNum fields "message_id") =
      some m)
    (hto : m.toUserID = reader)
    (hroom : ∀ s ∈ h.clients, s.mailbox.length + 2 ≤ s.capacity) :
    (handleReadMessage h db reader
        ⟨"message.read", .obj fields, tid⟩).2.messages.find?
        (fun x => x.id == getNum fields "message_id") =
      some { m with status := MessageStatus.read } ∧
    (handleReadMessage
        (handleReadMessage h db reader ⟨"message.read", .obj fields, tid⟩).1
        (handleReadMessage h db reader ⟨"message.read", .obj fields, tid⟩).2
        reader ⟨"message.read", .obj fields, tid⟩).2 =
      (handleReadMessage h db reader ⟨"message.read", .obj fields, tid⟩).2 ∧
    (handleReadMessage
        (handleReadMessage h db reader ⟨"message.read", .obj fields, tid⟩).1
        (handleReadMessage h db reader ⟨"message.read", .obj fields, tid⟩).2
        reader ⟨"message.read", .obj fields, tid⟩).1.closed = h.closed ∧
    (handleReadMessage
        (handleReadMessage h db reader ⟨"message.read", .obj fields, tid⟩).1
        (handleReadMessage h db reader ⟨"message.read", .obj fields, tid⟩).2
        reader ⟨"message.read", .obj fields, tid⟩).1.clients =
      h.clients.map (fun s =>
        if s.userID == m.fromUserID then
          { s with mailbox := s.mailbox ++
              [⟨"message.read", .obj [("message_id", JValue.num m.id)], ""⟩,
               ⟨"message.read", .obj [("message_id", JValue.num m.id)], ""⟩] }
        else s) := by
  have hmid : m.id = getNum fields "message_id" := by
    have := List.find?_some hfind
    simpa using this
  have hr1 : handleReadMessage h db reader ⟨"message.read", .obj fields, tid⟩ =
      (sendToUser h m.fromUserID
         ⟨"message.read", .obj [("message_id", JValue.num m.id)], ""⟩,
       { db with messages := db.messages.map (fun x =>
           if x.id == m.id then { m with status := MessageStatus.read }
           else x) }) := by
    unfold handleReadMessage
    simp only []
    rw [hfind]
    simp [hto]
  have hfix : ∀ x : Message, (x.id == getNum fields "message_id") = false →
      (if x.id == m.id then { m with status := MessageStatus.read } else x) = x := by
    intro x hx
    have hxm : (x.id == m.id) = false := by rw [hmid]; exact hx
    simp [hxm]
  have hsame : ∀ x : Message, (x.id == getNum fields "message_id") = true →
      (if x.id == m.id then { m with status := MessageStatus.read } else x) =
      (if m.id == m.id then { m with status := MessageStatus.read } else m) := by
    intro x hx
    have hxm : (x.id == m.id) = true := by rw [hmid]; exact hx
    simp [hxm]
  have hpa : ((if m.id == m.id then { m with status := MessageStatus.read }
      else m).id == getNum fields "message_id") = true := by
    simp [← hmid]
  have hfind1 := find?_map_update
    (fun x : Message => x.id == getNum fields "message_id")
    (fun x => if x.id == m.id then { m with status := MessageStatus.read } else x)
    db.messages m hfind hfix hsame hpa
  rw [show ((fun x : Message =>
      if x.id == m.id then { m with status := MessageStatus.read } else x) m) =
      { m with status := MessageStatus.read } from by simp] at hfind1
  have hr2 : ∀ (h2 : Hub), handleReadMessage h2
      { db with messages := db.messages.map (fun x =>
          if x.id == m.id then { m with status := MessageStatus.read } else x) }
      reader ⟨"message.read", .obj fields, tid⟩ =
      (sendToUser h2 m.fromUserID
         ⟨"message.read", .obj [("message_id", JValue.num m.id)], ""⟩,
       { db with messages := db.messages.map (fun x =>
           if x.id == m.id then { m with status := MessageStatus.read }
           else x) }) := by
    intro h2
    unfold handleReadMessage
    simp only []
    rw [hfind1]
    simp [hto]
    intro a _ hid
    by_cases ha : a.id = m.id
    · simp [ha]
    · rw [if_neg ha] at hid
      exact absurd hid ha
  refine ⟨?_, ?_, ?_, ?_⟩
  · rw [hr1]
    exact hfind1
  · simp only [hr1, hr2]
  · simp only [hr1, hr2]
    rw [sendToUser_twice_of_room h m.fromUserID
      ⟨"message.read", .obj [("message_id", JValue.num m.id)], ""⟩ hroom]
  · simp only [hr1, hr2]
    rw [sendToUser_twice_of_room h m.fromUserID
      ⟨"message.read", .obj [("message_id", JValue.num m.id)], ""⟩ hroom]

theorem C3_witness :
    (handleReadMessage (Hub.mk [⟨10, 1, [], 4⟩] [])
        (DB.mk [] [] [⟨1, 1, 1, 2, "hi", MessageStatus.sent, ""⟩] [] 2 2) 2
        ⟨"message.read", .obj [("message_id", JValue.num 1)], ""⟩).2.messages.find?
        (fun x => x.id == getNum [("message_id", JValue.num 1)] "message_id") =
      some ⟨1, 1, 1, 2, "hi", MessageStatus.read, ""⟩ ∧
    (handleReadMessage
        (handleReadMessage (Hub.mk [⟨10, 1, [], 4⟩] [])
          (DB.mk [] [] [⟨1, 1, 1, 2, "hi", MessageStatus.sent, ""⟩] [] 2 2) 2
          ⟨"message.read", .obj [("message_id", JValue.num 1)], ""⟩).1
        (handleReadMessage (Hub.mk [⟨10, 1, [], 4⟩] [])
          (DB.mk [] [] [⟨1, 1, 1, 2, "hi", MessageStatus.sent, ""⟩] [] 2 2) 2
          ⟨"message.read", .obj [("message_id", JValue.num 1)], ""⟩).2 2
        ⟨"message.read", .obj [("message_id", JValue.num 1)], ""⟩).1.clients =
      [⟨10, 1, [⟨"message.read", .obj [("message_id", JValue.num 1)], ""⟩,
                ⟨"message.read", .obj [("message_id", JValue.num 1)], ""⟩], 4⟩] :=
  ⟨(C3_markread_twice (Hub.mk [⟨10, 1, [], 4⟩] [])
      (DB.mk [] [] [⟨1, 1, 1, 2, "hi", MessageStatus.sent, ""⟩] [] 2 2) 2
      [("message_id", JValue.num 1)] "" ⟨1, 1, 1, 2, "hi", MessageStatus.sent, ""⟩
      (by decide) rfl (by decide)).1,
   (C3_markread_twice (Hub.mk [⟨10, 1, [], 4⟩] [])
      (DB.mk [] [] [⟨1, 1, 1, 2, "hi", MessageStatus.sent, ""⟩] [] 2 2) 2
      [("message_id", JValue.num 1)] "" ⟨1, 1, 1, 2, "hi", MessageStatus.sent, ""⟩
      (by decide) rfl (by decide)).2.2.2⟩

end Toloka
